import Mathlib

/-!
Verification of the prediction-to-artifact encoding pipeline of
`deeplab2/trainer/vis.py` (`store_raw_predictions`, `store_predictions`,
`_convert_cityscapes_train_id_to_eval_id`, `_get_fg_mask`).

Images are modelled as flat lists of pixel values (the 2-D layout is
irrelevant to every property below, which is pixel-wise or about the
maximum over all pixels).  Filesystem writes are modelled as a list of
`SavedArtifact` values, produced in program order; a raised `ValueError`
is modelled as a `VisError` returned next to the artifacts that were
already written when it was raised.
-/

set_option maxRecDepth 4096

namespace Vis

/-- `_CITYSCAPES_TRAIN_ID_TO_EVAL_ID`: conversion from train id to eval id. -/
def CITYSCAPES_TRAIN_ID_TO_EVAL_ID : List Nat :=
  [7, 8, 11, 12, 13, 17, 19, 20, 21, 22, 23, 24, 25, 26, 27, 28, 31, 32, 33, 0]

/-- The lookup table built by `_convert_cityscapes_train_id_to_eval_id`:
`np.zeros(max(256, len(table)))` with the table written into the leading
entries; equivalently the table followed by zero padding up to that length. -/
def to_eval_id_map : List Nat :=
  let length := max 256 CITYSCAPES_TRAIN_ID_TO_EVAL_ID.length
  CITYSCAPES_TRAIN_ID_TO_EVAL_ID ++
    List.replicate (length - CITYSCAPES_TRAIN_ID_TO_EVAL_ID.length) 0

/-- `_convert_cityscapes_train_id_to_eval_id`: numpy fancy indexing
`to_eval_id_map[prediction]` maps each pixel through the table, and raises
(`none`) when some pixel is out of the table's bounds. -/
def convert_cityscapes_train_id_to_eval_id
    (prediction : List Nat) : Option (List Nat) :=
  if prediction.all (fun v => v < to_eval_id_map.length) then
    some (prediction.map (fun v => to_eval_id_map.getD v 0))
  else
    none

/-- Semantic part of a packed panoptic id:
`panoptic_prediction // dataset_info.panoptic_label_divisor` (vis.py line 172). -/
def decodeSemanticLabel (panoptic_id divisor : Nat) : Nat :=
  panoptic_id / divisor

/-- Instance part of a packed panoptic id:
`predictions[common.TARGET_PANOPTIC_KEY] % dataset_info.panoptic_label_divisor`
(vis.py line 177). -/
def decodeInstanceLabel (panoptic_id divisor : Nat) : Nat :=
  panoptic_id % divisor

/-- `np.max` over the pixels of a (nonnegative integer) image. -/
def npMax (l : List Nat) : Nat := l.foldl max 0

/-- Python's `needle in hay` on a list of characters: `needle` occurs at the
start of `hay`. -/
def leadingMatch : List Char → List Char → Bool
  | [], _ => true
  | _ :: _, [] => false
  | a :: as, b :: bs => a == b && leadingMatch as bs

/-- Python's substring test `needle in hay` over character lists. -/
def strInAux (needle : List Char) : List Char → Bool
  | [] => leadingMatch needle []
  | c :: rest => leadingMatch needle (c :: rest) || strInAux needle rest

/-- Python's substring test `'needle' in hay` on strings. -/
def strIn (needle hay : String) : Bool :=
  strInAux needle.data hay.data

/-- The fields of `dataset.DatasetDescriptor` used by vis.py. -/
structure DatasetDescriptor where
  dataset_name : String
  panoptic_label_divisor : Nat
  ignore_label : Nat
  class_has_instances_list : List Nat
  is_video_dataset : Bool
deriving Repr, DecidableEq

/-- A file written by `store_raw_predictions`: either the raw semantic PNG, the
raw panoptic PNG (3-channel pixel values), or the raw panoptic `.npy` numpy
array (also a 3-channel zero-initialised array in the source). -/
inductive SavedArtifact where
  | rawSemantic (data : List Nat)
  | rawPanopticPng (data : List (Nat × Nat × Nat))
  | rawPanopticNpy (data : List (Nat × Nat × Nat))
deriving Repr, DecidableEq

/-- The `ValueError`s `store_raw_predictions` can raise, one constructor per
distinct message. -/
inductive VisError where
  | unsupportedDataset (name : String)
  | overflowSemantic255
  | overflowInstance255
  | overflowInstance65535
  | unknownFormat (fmt : String)
  | indexError
deriving Repr, DecidableEq

/-- Whether an outcome is one of the `Overflow:` `ValueError`s. -/
def isOverflowError : Option VisError → Bool
  | some VisError.overflowSemantic255 => true
  | some VisError.overflowInstance255 => true
  | some VisError.overflowInstance65535 => true
  | _ => false

/-- Assemble `panoptic_outputs`: a 3-channel image from its channels. -/
def packChannels (c0 c1 c2 : List Nat) : List (Nat × Nat × Nat) :=
  List.zipWith (fun a bc => (a, bc)) c0 (List.zipWith Prod.mk c1 c2)

/-- `predicted_semantic_labels` before eval-id conversion (vis.py line 172). -/
def decodedSemanticLabels (panoptic : List Nat) (divisor : Nat) : List Nat :=
  panoptic.map (fun p => decodeSemanticLabel p divisor)

/-- `predicted_instance_labels` (vis.py line 177). -/
def decodedInstanceLabels (panoptic : List Nat) (divisor : Nat) : List Nat :=
  panoptic.map (fun p => decodeInstanceLabel p divisor)

/-- The `raw_panoptic_format` dispatch of `store_raw_predictions` (vis.py
lines 184-223).  `saved` holds the artifacts already written when the dispatch
runs; `panoptic_outputs` starts as a 3-channel zero array, so the unassigned
channels stay 0. -/
def formatDispatch (saved : List SavedArtifact)
    (predicted_semantic_labels predicted_instance_labels : List Nat)
    (raw_panoptic_format : String) : List SavedArtifact × Option VisError :=
  if raw_panoptic_format = "two_channel_png" then
    if 255 < npMax predicted_semantic_labels then
      (saved, some VisError.overflowSemantic255)
    else if 255 < npMax predicted_instance_labels then
      (saved, some VisError.overflowInstance255)
    else
      (saved ++ [SavedArtifact.rawPanopticPng
         (packChannels predicted_semantic_labels predicted_instance_labels
           (predicted_instance_labels.map (fun _ => 0)))], none)
  else if raw_panoptic_format = "three_channel_png" then
    if 255 < npMax predicted_semantic_labels then
      (saved, some VisError.overflowSemantic255)
    else if 65535 < npMax predicted_instance_labels then
      (saved, some VisError.overflowInstance65535)
    else
      (saved ++ [SavedArtifact.rawPanopticPng
         (packChannels predicted_semantic_labels
           (predicted_instance_labels.map (fun v => v / 256))
           (predicted_instance_labels.map (fun v => v % 256)))], none)
  else if raw_panoptic_format = "two_channel_numpy_array" then
    (saved ++ [SavedArtifact.rawPanopticNpy
       (packChannels predicted_semantic_labels predicted_instance_labels
         (predicted_instance_labels.map (fun _ => 0)))], none)
  else
    (saved, some (VisError.unknownFormat raw_panoptic_format))

/-- `store_raw_predictions` (vis.py lines 87-223).  Inputs are the already
unbatched numpy arrays: the semantic prediction (always present) and the
panoptic prediction (present iff `common.TARGET_PANOPTIC_KEY` is in the
predictions dictionary).  Output: the artifacts written, in program order,
paired with the `ValueError` raised, if any.  Filesystem paths (save_dir,
video-sequence subfolder) carry no logic and are not modelled. -/
def store_raw_predictions (semantic : List Nat) (panoptic : Option (List Nat))
    (dataset_info : DatasetDescriptor) (raw_panoptic_format : String)
    (convert_to_eval : Bool) : List SavedArtifact × Option VisError :=
  -- lines 145-152: convert the semantic prediction, or raise.
  let semConverted : Except VisError (List Nat) :=
    if convert_to_eval then
      if strIn "cityscapes" dataset_info.dataset_name then
        match convert_cityscapes_train_id_to_eval_id semantic with
        | some out => Except.ok out
        | none => Except.error VisError.indexError
      else
        Except.error (VisError.unsupportedDataset dataset_info.dataset_name)
    else
      Except.ok semantic
  match semConverted with
  | Except.error e => ([], some e)
  | Except.ok semantic_prediction =>
    -- lines 153-162: store the raw semantic prediction.
    let saved := [SavedArtifact.rawSemantic semantic_prediction]
    match panoptic with
    | none => (saved, none)
    | some panoptic_prediction =>
      -- lines 168-178: decode the two channels from the packed panoptic id.
      let divisor := dataset_info.panoptic_label_divisor
      let decoded := decodedSemanticLabels panoptic_prediction divisor
      match (if convert_to_eval
             then convert_cityscapes_train_id_to_eval_id decoded
             else some decoded) with
      | none => (saved, some VisError.indexError)
      | some predicted_semantic_labels =>
        -- lines 184-223: format dispatch.
        formatDispatch saved predicted_semantic_labels
          (decodedInstanceLabels panoptic_prediction divisor)
          raw_panoptic_format

/-- One iteration of the loop in `_get_fg_mask`: or the mask with the equality
mask of `class_id` when `class_id` is a thing class. -/
def maskStep (label_map : List Nat) (thing_list : List Nat)
    (fg_mask : List Bool) (class_id : Nat) : List Bool :=
  if class_id ∈ thing_list then
    List.zipWith (fun a b => a || b) fg_mask (label_map.map (fun v => v == class_id))
  else
    fg_mask

/-- `_get_fg_mask` (vis.py lines 78-84): start from all-False, fold the loop
body over the distinct values of the label map, cast booleans to 0/1.
`np.unique` sorts its output; only the set of distinct values matters here, so
`List.dedup` stands in for it. -/
def get_fg_mask (label_map : List Nat) (thing_list : List Nat) : List Nat :=
  let fg_mask := label_map.dedup.foldl (maskStep label_map thing_list)
    (label_map.map (fun _ => false))
  fg_mask.map (fun b => if b then 1 else 0)

/-- `center_offset_prediction_rgb * pred_fg_mask` (vis.py lines 284-287): the
flow-color image multiplied pixel-wise by the 0/1 foreground mask derived from
the semantic prediction (the mask broadcasts over the 3 color channels). -/
def maskOffsetImage (img : List (Nat × Nat × Nat)) (label_map : List Nat)
    (thing_list : List Nat) : List (Nat × Nat × Nat) :=
  List.zipWith (fun p m => (p.1 * m, p.2.1 * m, p.2.2 * m))
    img (get_fg_mask label_map thing_list)

/-- `error_prediction` (vis.py lines 328-331): the ground-truth label is cast
to `uint8` (value mod 256), and a pixel is 255 exactly when the prediction
differs from the cast label and the cast label is not the ignore label. -/
def error_prediction (semantic_pred gt_raw : List Nat)
    (ignore_label : Nat) : List Nat :=
  List.zipWith
    (fun p l => (if p ≠ l % 256 ∧ l % 256 ≠ ignore_label then 1 else 0) * 255)
    semantic_pred gt_raw

end Vis

namespace Vis

/-! ## Shared helper lemmas -/

theorem to_eval_id_map_length : to_eval_id_map.length = 256 := by decide

theorem getD_zipWith_of_lt {α β γ : Type} (f : α → β → γ) :
    ∀ (as : List α) (bs : List β) (i : Nat) (d : γ) (da : α) (db : β),
      i < as.length → i < bs.length →
      (List.zipWith f as bs).getD i d = f (as.getD i da) (bs.getD i db) := by
  intro as
  induction as with
  | nil => intro bs i d da db h1 h2; simp at h1
  | cons a as ih =>
    intro bs i d da db h1 h2
    cases bs with
    | nil => simp at h2
    | cons b bs =>
      cases i with
      | zero => rfl
      | succ j =>
        simp only [List.zipWith_cons_cons, List.getD_cons_succ]
        exact ih bs j d da db (by simpa using h1) (by simpa using h2)

theorem getD_map_of_lt {α β : Type} (f : α → β) :
    ∀ (l : List α) (i : Nat) (d : β) (da : α), i < l.length →
      (l.map f).getD i d = f (l.getD i da) := by
  intro l
  induction l with
  | nil => intro i d da h; simp at h
  | cons a as ih =>
    intro i d da h
    cases i with
    | zero => rfl
    | succ j =>
      simp only [List.map_cons, List.getD_cons_succ]
      exact ih j d da (by simpa using h)

theorem packChannels_map_fst :
    ∀ (c0 c1 c2 : List Nat), c1.length = c0.length → c2.length = c0.length →
      (packChannels c0 c1 c2).map (fun t => t.1) = c0 := by
  intro c0
  induction c0 with
  | nil => intro c1 c2 _ _; simp [packChannels]
  | cons a as ih =>
    intro c1 c2 h1 h2
    cases c1 with
    | nil => simp at h1
    | cons b bs =>
      cases c2 with
      | nil => simp at h2
      | cons c cs =>
        simp only [packChannels, List.zipWith_cons_cons, List.map_cons]
        refine congrArg (a :: ·) ?_
        exact ih bs cs (by simpa using h1) (by simpa using h2)

theorem packChannels_map_snd_fst :
    ∀ (c0 c1 c2 : List Nat), c1.length = c0.length → c2.length = c0.length →
      (packChannels c0 c1 c2).map (fun t => t.2.1) = c1 := by
  intro c0
  induction c0 with
  | nil =>
    intro c1 c2 h1 _
    rw [List.length_nil, List.length_eq_zero] at h1
    subst h1
    simp [packChannels]
  | cons a as ih =>
    intro c1 c2 h1 h2
    cases c1 with
    | nil => simp at h1
    | cons b bs =>
      cases c2 with
      | nil => simp at h2
      | cons c cs =>
        simp only [packChannels, List.zipWith_cons_cons, List.map_cons]
        refine congrArg (b :: ·) ?_
        exact ih bs cs (by simpa using h1) (by simpa using h2)

theorem packChannels_map_snd_snd :
    ∀ (c0 c1 c2 : List Nat), c1.length = c0.length → c2.length = c0.length →
      (packChannels c0 c1 c2).map (fun t => t.2.2) = c2 := by
  intro c0
  induction c0 with
  | nil =>
    intro c1 c2 _ h2
    rw [List.length_nil, List.length_eq_zero] at h2
    subst h2
    simp [packChannels]
  | cons a as ih =>
    intro c1 c2 h1 h2
    cases c1 with
    | nil => simp at h1
    | cons b bs =>
      cases c2 with
      | nil => simp at h2
      | cons c cs =>
        simp only [packChannels, List.zipWith_cons_cons, List.map_cons]
        refine congrArg (c :: ·) ?_
        exact ih bs cs (by simpa using h1) (by simpa using h2)

theorem formatDispatch_fst_head (a : SavedArtifact)
    (semL instL : List Nat) (fmt : String) :
    (formatDispatch [a] semL instL fmt).1.head? = some a := by
  unfold formatDispatch
  split_ifs <;> rfl

theorem maskStep_length (lm tl : List Nat) (acc : List Bool) (c : Nat)
    (h : acc.length = lm.length) :
    (maskStep lm tl acc c).length = lm.length := by
  unfold maskStep
  split_ifs
  · simp [h]
  · exact h

theorem maskStep_getD (lm tl : List Nat) (acc : List Bool) (c : Nat) (i : Nat)
    (h : acc.length = lm.length) (hi : i < lm.length) :
    (maskStep lm tl acc c).getD i false =
      (acc.getD i false || (decide (c ∈ tl) && (lm.getD i 0 == c))) := by
  unfold maskStep
  split_ifs with hc
  · rw [getD_zipWith_of_lt (fun a b => a || b) acc
      (lm.map (fun v => v == c)) i false false false (h ▸ hi) (by simpa using hi)]
    rw [getD_map_of_lt (fun v => v == c) lm i false 0 hi]
    simp [hc]
  · simp [hc]

theorem foldl_maskStep_length (lm tl : List Nat) :
    ∀ (cs : List Nat) (acc : List Bool), acc.length = lm.length →
      (cs.foldl (maskStep lm tl) acc).length = lm.length := by
  intro cs
  induction cs with
  | nil => intro acc h; exact h
  | cons c cs ih =>
    intro acc h
    rw [List.foldl_cons]
    exact ih _ (maskStep_length lm tl acc c h)

theorem foldl_maskStep_getD (lm tl : List Nat) (i : Nat) (hi : i < lm.length) :
    ∀ (cs : List Nat) (acc : List Bool), acc.length = lm.length →
      (cs.foldl (maskStep lm tl) acc).getD i false =
        (acc.getD i false ||
          (decide (lm.getD i 0 ∈ cs) && decide (lm.getD i 0 ∈ tl))) := by
  intro cs
  induction cs with
  | nil => intro acc h; simp
  | cons c cs ih =>
    intro acc h
    rw [List.foldl_cons, ih _ (maskStep_length lm tl acc c h),
      maskStep_getD lm tl acc c i h hi]
    generalize lm.getD i 0 = x
    generalize acc.getD i false = a
    by_cases hxc : x = c
    · subst hxc
      by_cases hxt : x ∈ tl <;> by_cases hxs : x ∈ cs <;>
        simp [hxt, hxs, List.mem_cons]
    · by_cases hxt : x ∈ tl <;> by_cases hxs : x ∈ cs <;>
        by_cases hct : c ∈ tl <;>
        simp [hxc, hxt, hxs, hct, List.mem_cons]

theorem get_fg_mask_length (lm tl : List Nat) :
    (get_fg_mask lm tl).length = lm.length := by
  unfold get_fg_mask
  rw [List.length_map]
  exact foldl_maskStep_length lm tl lm.dedup _ (by simp)

theorem get_fg_mask_getD (lm tl : List Nat) (i : Nat) (hi : i < lm.length) :
    (get_fg_mask lm tl).getD i 0 = if lm.getD i 0 ∈ tl then 1 else 0 := by
  unfold get_fg_mask
  dsimp only
  have hflen : (lm.dedup.foldl (maskStep lm tl)
      (lm.map (fun _ => false))).length = lm.length :=
    foldl_maskStep_length lm tl lm.dedup _ (by simp)
  rw [getD_map_of_lt (fun b : Bool => if b then (1 : Nat) else 0) _ i 0 false
    (hflen ▸ hi)]
  rw [foldl_maskStep_getD lm tl i hi lm.dedup _ (by simp)]
  rw [getD_map_of_lt (fun _ => false) lm i false 0 hi]
  have hxmem : lm.getD i 0 ∈ lm := by
    rw [List.getD_eq_getElem lm 0 hi]
    exact List.getElem_mem hi
  by_cases hx : lm.getD i 0 ∈ tl <;>
    · simp only [List.getD_eq_getElem?_getD] at hxmem hx ⊢
      simp [List.mem_dedup, hxmem, hx]

theorem error_prediction_binary (ig : Nat) :
    ∀ (s g : List Nat), ∀ v ∈ error_prediction s g ig, v = 0 ∨ v = 255 := by
  intro s
  induction s with
  | nil => intro g v hv; simp [error_prediction] at hv
  | cons a as ih =>
    intro g v hv
    cases g with
    | nil => simp [error_prediction] at hv
    | cons b bs =>
      simp only [error_prediction, List.zipWith_cons_cons,
        List.mem_cons] at hv
      cases hv with
      | inl h =>
        subst h
        by_cases hp : a ≠ b % 256 ∧ b % 256 ≠ ig
        · right; simp [hp]
        · left; simp [hp]
      | inr h => exact ih bs v h

/-! ## Claim theorems -/

/-- C1: panoptic encode/decode round-trip.  For every semantic label `s`,
instance id `i` and divisor `d` with `i < d`, decoding the packed id
`s * d + i` the way `store_raw_predictions` does (integer division by the
divisor for the semantic part, modulo for the instance part) recovers
exactly `(s, i)`. -/
theorem panoptic_roundtrip (s i d : Nat) (h : i < d) :
    decodeSemanticLabel (s * d + i) d = s ∧
    decodeInstanceLabel (s * d + i) d = i := by
  have hd : 0 < d := Nat.lt_of_le_of_lt (Nat.zero_le i) h
  constructor
  · unfold decodeSemanticLabel
    rw [Nat.mul_comm s d, Nat.mul_add_div hd, Nat.div_eq_of_lt h, Nat.add_zero]
  · unfold decodeInstanceLabel
    rw [Nat.mul_comm s d, Nat.mul_add_mod, Nat.mod_eq_of_lt h]

theorem panoptic_roundtrip_witness :
    decodeSemanticLabel (12 * 1000 + 345) 1000 = 12 ∧
    decodeInstanceLabel (12 * 1000 + 345) 1000 = 345 :=
  panoptic_roundtrip 12 345 1000 (by decide)

/-- C9: the train-id-to-eval-id lookup table is zero-padded to 256 entries,
so `convert_cityscapes_train_id_to_eval_id` succeeds on every prediction
whose values lie in `[0, 255]`, and every train id in `[20, 255]` is mapped
to eval id `0`. -/
theorem eval_id_table_total (prediction : List Nat)
    (hp : ∀ v ∈ prediction, v ≤ 255) :
    (convert_cityscapes_train_id_to_eval_id prediction).isSome = true ∧
    (∀ v, 20 ≤ v → v ≤ 255 → to_eval_id_map.getD v 0 = 0) := by
  have hpad : ∀ v < 256, 20 ≤ v → to_eval_id_map.getD v 0 = 0 := by decide
  constructor
  · unfold convert_cityscapes_train_id_to_eval_id
    rw [if_pos]
    · rfl
    · rw [List.all_eq_true]
      intro v hv
      rw [to_eval_id_map_length]
      exact decide_eq_true (Nat.lt_succ_of_le (hp v hv))
  · intro v h20 h255
    exact hpad v (Nat.lt_succ_of_le h255) h20

/-- C2: for `raw_panoptic_format = 'two_channel_png'`, the call raises an
overflow `ValueError` iff the maximum decoded semantic id exceeds 255 or the
maximum decoded instance id exceeds 255; when it does not raise, channel 0 of
the saved array equals the semantic ids and channel 1 the instance ids. -/
theorem two_channel_png_spec (semantic pan : List Nat)
    (dataset_info : DatasetDescriptor) :
    (isOverflowError
        (store_raw_predictions semantic (some pan) dataset_info
          "two_channel_png" false).2 = true ↔
      255 < npMax (decodedSemanticLabels pan dataset_info.panoptic_label_divisor) ∨
      255 < npMax (decodedInstanceLabels pan dataset_info.panoptic_label_divisor)) ∧
    (npMax (decodedSemanticLabels pan dataset_info.panoptic_label_divisor) ≤ 255 →
     npMax (decodedInstanceLabels pan dataset_info.panoptic_label_divisor) ≤ 255 →
      store_raw_predictions semantic (some pan) dataset_info
          "two_channel_png" false =
        ([SavedArtifact.rawSemantic semantic,
          SavedArtifact.rawPanopticPng
            (packChannels
              (decodedSemanticLabels pan dataset_info.panoptic_label_divisor)
              (decodedInstanceLabels pan dataset_info.panoptic_label_divisor)
              ((decodedInstanceLabels pan dataset_info.panoptic_label_divisor).map
                (fun _ => 0)))], none) ∧
      (packChannels
          (decodedSemanticLabels pan dataset_info.panoptic_label_divisor)
          (decodedInstanceLabels pan dataset_info.panoptic_label_divisor)
          ((decodedInstanceLabels pan dataset_info.panoptic_label_divisor).map
            (fun _ => 0))).map (fun t => t.1) =
        decodedSemanticLabels pan dataset_info.panoptic_label_divisor ∧
      (packChannels
          (decodedSemanticLabels pan dataset_info.panoptic_label_divisor)
          (decodedInstanceLabels pan dataset_info.panoptic_label_divisor)
          ((decodedInstanceLabels pan dataset_info.panoptic_label_divisor).map
            (fun _ => 0))).map (fun t => t.2.1) =
        decodedInstanceLabels pan dataset_info.panoptic_label_divisor) := by
  have hred : store_raw_predictions semantic (some pan) dataset_info
      "two_channel_png" false =
      formatDispatch [SavedArtifact.rawSemantic semantic]
        (decodedSemanticLabels pan dataset_info.panoptic_label_divisor)
        (decodedInstanceLabels pan dataset_info.panoptic_label_divisor)
        "two_channel_png" := rfl
  rw [hred]
  unfold formatDispatch
  rw [if_pos rfl]
  constructor
  · split_ifs with h1 h2
    · simp [isOverflowError, h1]
    · simp [isOverflowError, h2]
    · simp [isOverflowError, h1, h2]
  · intro hs hi
    rw [if_neg (Nat.not_lt.mpr hs), if_neg (Nat.not_lt.mpr hi)]
    refine ⟨rfl, ?_, ?_⟩
    · refine packChannels_map_fst _ _ _ ?_ ?_ <;>
        simp [decodedSemanticLabels, decodedInstanceLabels]
    · refine packChannels_map_snd_fst _ _ _ ?_ ?_ <;>
        simp [decodedSemanticLabels, decodedInstanceLabels]

theorem two_channel_png_spec_witness :
    store_raw_predictions [1] (some [34]) ⟨"x", 10, 255, [], false⟩
        "two_channel_png" false =
      ([SavedArtifact.rawSemantic [1],
        SavedArtifact.rawPanopticPng
          (packChannels (decodedSemanticLabels [34] 10)
            (decodedInstanceLabels [34] 10)
            ((decodedInstanceLabels [34] 10).map (fun _ => 0)))], none) ∧
    (packChannels (decodedSemanticLabels [34] 10)
        (decodedInstanceLabels [34] 10)
        ((decodedInstanceLabels [34] 10).map (fun _ => 0))).map (fun t => t.1) =
      decodedSemanticLabels [34] 10 ∧
    (packChannels (decodedSemanticLabels [34] 10)
        (decodedInstanceLabels [34] 10)
        ((decodedInstanceLabels [34] 10).map (fun _ => 0))).map
        (fun t => t.2.1) =
      decodedInstanceLabels [34] 10 :=
  (two_channel_png_spec [1] [34] ⟨"x", 10, 255, [], false⟩).2
    (by decide) (by decide)

/-- C3: for `raw_panoptic_format = 'three_channel_png'`, the call raises an
overflow `ValueError` exactly when the maximum semantic id exceeds 255 or the
maximum instance id exceeds 65535; otherwise the saved array has channel 0 =
semantic id, channel 1 = instance id / 256 and channel 2 = instance id % 256
at every pixel. -/
theorem three_channel_png_spec (semantic pan : List Nat)
    (dataset_info : DatasetDescriptor) :
    (isOverflowError
        (store_raw_predictions semantic (some pan) dataset_info
          "three_channel_png" false).2 = true ↔
      255 < npMax (decodedSemanticLabels pan dataset_info.panoptic_label_divisor) ∨
      65535 < npMax (decodedInstanceLabels pan dataset_info.panoptic_label_divisor)) ∧
    (npMax (decodedSemanticLabels pan dataset_info.panoptic_label_divisor) ≤ 255 →
     npMax (decodedInstanceLabels pan dataset_info.panoptic_label_divisor) ≤ 65535 →
      store_raw_predictions semantic (some pan) dataset_info
          "three_channel_png" false =
        ([SavedArtifact.rawSemantic semantic,
          SavedArtifact.rawPanopticPng
            (packChannels
              (decodedSemanticLabels pan dataset_info.panoptic_label_divisor)
              ((decodedInstanceLabels pan dataset_info.panoptic_label_divisor).map
                (fun v => v / 256))
              ((decodedInstanceLabels pan dataset_info.panoptic_label_divisor).map
                (fun v => v % 256)))], none) ∧
      (packChannels
          (decodedSemanticLabels pan dataset_info.panoptic_label_divisor)
          ((decodedInstanceLabels pan dataset_info.panoptic_label_divisor).map
            (fun v => v / 256))
          ((decodedInstanceLabels pan dataset_info.panoptic_label_divisor).map
            (fun v => v % 256))).map (fun t => t.1) =
        decodedSemanticLabels pan dataset_info.panoptic_label_divisor ∧
      (packChannels
          (decodedSemanticLabels pan dataset_info.panoptic_label_divisor)
          ((decodedInstanceLabels pan dataset_info.panoptic_label_divisor).map
            (fun v => v / 256))
          ((decodedInstanceLabels pan dataset_info.panoptic_label_divisor).map
            (fun v => v % 256))).map (fun t => t.2.1) =
        (decodedInstanceLabels pan dataset_info.panoptic_label_divisor).map
          (fun v => v / 256) ∧
      (packChannels
          (decodedSemanticLabels pan dataset_info.panoptic_label_divisor)
          ((decodedInstanceLabels pan dataset_info.panoptic_label_divisor).map
            (fun v => v / 256))
          ((decodedInstanceLabels pan dataset_info.panoptic_label_divisor).map
            (fun v => v % 256))).map (fun t => t.2.2) =
        (decodedInstanceLabels pan dataset_info.panoptic_label_divisor).map
          (fun v => v % 256)) := by
  have hred : store_raw_predictions semantic (some pan) dataset_info
      "three_channel_png" false =
      formatDispatch [SavedArtifact.rawSemantic semantic]
        (decodedSemanticLabels pan dataset_info.panoptic_label_divisor)
        (decodedInstanceLabels pan dataset_info.panoptic_label_divisor)
        "three_channel_png" := rfl
  rw [hred]
  unfold formatDispatch
  rw [if_neg (by decide : ¬ ("three_channel_png" = "two_channel_png")),
    if_pos rfl]
  constructor
  · split_ifs with h1 h2
    · simp [isOverflowError, h1]
    · simp [isOverflowError, h2]
    · simp [isOverflowError, h1, h2]
  · intro hs hi
    rw [if_neg (Nat.not_lt.mpr hs), if_neg (Nat.not_lt.mpr hi)]
    refine ⟨rfl, ?_, ?_, ?_⟩
    · refine packChannels_map_fst _ _ _ ?_ ?_ <;>
        simp [decodedSemanticLabels, decodedInstanceLabels]
    · refine packChannels_map_snd_fst _ _ _ ?_ ?_ <;>
        simp [decodedSemanticLabels, decodedInstanceLabels]
    · refine packChannels_map_snd_snd _ _ _ ?_ ?_ <;>
        simp [decodedSemanticLabels, decodedInstanceLabels]

theorem three_channel_png_spec_witness :
    store_raw_predictions [1] (some [7 * 100000 + 65535])
        ⟨"x", 100000, 255, [], false⟩ "three_channel_png" false =
      ([SavedArtifact.rawSemantic [1],
        SavedArtifact.rawPanopticPng
          (packChannels (decodedSemanticLabels [7 * 100000 + 65535] 100000)
            ((decodedInstanceLabels [7 * 100000 + 65535] 100000).map
              (fun v => v / 256))
            ((decodedInstanceLabels [7 * 100000 + 65535] 100000).map
              (fun v => v % 256)))], none) ∧
    (packChannels (decodedSemanticLabels [7 * 100000 + 65535] 100000)
        ((decodedInstanceLabels [7 * 100000 + 65535] 100000).map
          (fun v => v / 256))
        ((decodedInstanceLabels [7 * 100000 + 65535] 100000).map
          (fun v => v % 256))).map (fun t => t.1) =
      decodedSemanticLabels [7 * 100000 + 65535] 100000 ∧
    (packChannels (decodedSemanticLabels [7 * 100000 + 65535] 100000)
        ((decodedInstanceLabels [7 * 100000 + 65535] 100000).map
          (fun v => v / 256))
        ((decodedInstanceLabels [7 * 100000 + 65535] 100000).map
          (fun v => v % 256))).map (fun t => t.2.1) =
      (decodedInstanceLabels [7 * 100000 + 65535] 100000).map
        (fun v => v / 256) ∧
    (packChannels (decodedSemanticLabels [7 * 100000 + 65535] 100000)
        ((decodedInstanceLabels [7 * 100000 + 65535] 100000).map
          (fun v => v / 256))
        ((decodedInstanceLabels [7 * 100000 + 65535] 100000).map
          (fun v => v % 256))).map (fun t => t.2.2) =
      (decodedInstanceLabels [7 * 100000 + 65535] 100000).map
        (fun v => v % 256) :=
  (three_channel_png_spec [1] [7 * 100000 + 65535]
    ⟨"x", 100000, 255, [], false⟩).2 (by decide) (by decide)

/-- C4: every `raw_panoptic_format` string other than the three supported
ones makes `store_raw_predictions` fail with the unknown-format
`ValueError` (when the panoptic branch runs). -/
theorem unknown_format_spec (semantic pan : List Nat)
    (dataset_info : DatasetDescriptor) (fmt : String)
    (h1 : fmt ≠ "two_channel_png") (h2 : fmt ≠ "three_channel_png")
    (h3 : fmt ≠ "two_channel_numpy_array") :
    store_raw_predictions semantic (some pan) dataset_info fmt false =
      ([SavedArtifact.rawSemantic semantic],
       some (VisError.unknownFormat fmt)) := by
  have hred : store_raw_predictions semantic (some pan) dataset_info
      fmt false =
      formatDispatch [SavedArtifact.rawSemantic semantic]
        (decodedSemanticLabels pan dataset_info.panoptic_label_divisor)
        (decodedInstanceLabels pan dataset_info.panoptic_label_divisor)
        fmt := rfl
  rw [hred]
  unfold formatDispatch
  rw [if_neg h1, if_neg h2, if_neg h3]

theorem unknown_format_spec_witness :
    store_raw_predictions [1] (some [34]) ⟨"x", 10, 255, [], false⟩
        "png" false =
      ([SavedArtifact.rawSemantic [1]],
       some (VisError.unknownFormat "png")) :=
  unknown_format_spec [1] [34] ⟨"x", 10, 255, [], false⟩ "png"
    (by decide) (by decide) (by decide)

/-- C6: for `raw_panoptic_format = 'two_channel_numpy_array'`, the call
performs no range check (it never raises, whatever the values) and persists
the decoded channels as a numpy `.npy` array artifact rather than a PNG. -/
theorem numpy_array_spec (semantic pan : List Nat)
    (dataset_info : DatasetDescriptor) :
    store_raw_predictions semantic (some pan) dataset_info
        "two_channel_numpy_array" false =
      ([SavedArtifact.rawSemantic semantic,
        SavedArtifact.rawPanopticNpy
          (packChannels
            (decodedSemanticLabels pan dataset_info.panoptic_label_divisor)
            (decodedInstanceLabels pan dataset_info.panoptic_label_divisor)
            ((decodedInstanceLabels pan dataset_info.panoptic_label_divisor).map
              (fun _ => 0)))], none) := by
  have hred : store_raw_predictions semantic (some pan) dataset_info
      "two_channel_numpy_array" false =
      formatDispatch [SavedArtifact.rawSemantic semantic]
        (decodedSemanticLabels pan dataset_info.panoptic_label_divisor)
        (decodedInstanceLabels pan dataset_info.panoptic_label_divisor)
        "two_channel_numpy_array" := rfl
  rw [hred]
  unfold formatDispatch
  rw [if_neg (by decide : ¬ ("two_channel_numpy_array" = "two_channel_png")),
    if_neg (by decide : ¬ ("two_channel_numpy_array" = "three_channel_png")),
    if_pos rfl]
  rfl

/-- C10: the overflow and unknown-format errors can only arise when the
predictions dictionary contains the panoptic key: without it any format
string is accepted and only the raw semantic artifact is written; with it,
the raw semantic artifact is always the first artifact written, so it is
already on disk when any of those errors is raised. -/
theorem panoptic_branch_order_spec (semantic pan : List Nat)
    (dataset_info : DatasetDescriptor) (fmt : String) :
    store_raw_predictions semantic none dataset_info fmt false =
      ([SavedArtifact.rawSemantic semantic], none) ∧
    (store_raw_predictions semantic (some pan) dataset_info
        fmt false).1.head? = some (SavedArtifact.rawSemantic semantic) := by
  constructor
  · rfl
  · have hred : store_raw_predictions semantic (some pan) dataset_info
        fmt false =
        formatDispatch [SavedArtifact.rawSemantic semantic]
          (decodedSemanticLabels pan dataset_info.panoptic_label_divisor)
          (decodedInstanceLabels pan dataset_info.panoptic_label_divisor)
          fmt := rfl
    rw [hred]
    exact formatDispatch_fst_head _ _ _ _

theorem eval_id_table_total_witness :
    (convert_cityscapes_train_id_to_eval_id [0, 19, 20, 255]).isSome = true ∧
    to_eval_id_map.getD 137 0 = 0 :=
  ⟨(eval_id_table_total [0, 19, 20, 255] (by decide)).1,
   (eval_id_table_total [0, 19, 20, 255] (by decide)).2 137 (by decide) (by decide)⟩

/-- C5: with `convert_to_eval` true, `store_raw_predictions` raises a
`ValueError` for every dataset whose name does not contain `'cityscapes'`
(before writing anything), and for a recognized dataset the stored raw
semantic prediction is the elementwise lookup-table remap of the input. -/
theorem convert_to_eval_spec (semantic : List Nat)
    (panoptic : Option (List Nat)) (dataset_info : DatasetDescriptor)
    (fmt : String) :
    (strIn "cityscapes" dataset_info.dataset_name = false →
      store_raw_predictions semantic panoptic dataset_info fmt true =
        ([], some (VisError.unsupportedDataset dataset_info.dataset_name))) ∧
    (strIn "cityscapes" dataset_info.dataset_name = true →
      (∀ v ∈ semantic, v < 256) →
      (store_raw_predictions semantic panoptic dataset_info fmt true).1.head? =
        some (SavedArtifact.rawSemantic
          (semantic.map (fun v => to_eval_id_map.getD v 0)))) := by
  constructor
  · intro hc
    simp [store_raw_predictions, hc]
  · intro hc hv
    have hconv : convert_cityscapes_train_id_to_eval_id semantic =
        some (semantic.map (fun v => to_eval_id_map.getD v 0)) := by
      unfold convert_cityscapes_train_id_to_eval_id
      rw [if_pos]
      rw [List.all_eq_true]
      intro v hvm
      rw [to_eval_id_map_length]
      exact decide_eq_true (hv v hvm)
    simp only [store_raw_predictions, hc, hconv, if_true]
    cases panoptic with
    | none => rfl
    | some pan =>
      cases hd : convert_cityscapes_train_id_to_eval_id
          (decodedSemanticLabels pan dataset_info.panoptic_label_divisor) with
      | none => simp [hd]
      | some out => simp [hd, formatDispatch_fst_head]

theorem convert_to_eval_spec_witness :
    store_raw_predictions [1, 19, 20] none ⟨"coco", 1000, 255, [], false⟩
        "x" true =
      ([], some (VisError.unsupportedDataset "coco")) ∧
    (store_raw_predictions [1, 19, 20] none
        ⟨"cityscapes_val", 1000, 255, [], false⟩ "x" true).1.head? =
      some (SavedArtifact.rawSemantic
        ([1, 19, 20].map (fun v => to_eval_id_map.getD v 0))) :=
  ⟨(convert_to_eval_spec [1, 19, 20] none
      ⟨"coco", 1000, 255, [], false⟩ "x").1 (by decide),
   (convert_to_eval_spec [1, 19, 20] none
      ⟨"cityscapes_val", 1000, 255, [], false⟩ "x").2 (by decide) (by decide)⟩

/-- C7: the mask computed by `_get_fg_mask` is 1 exactly at the pixels whose
class id is in the thing list and 0 elsewhere, and multiplying the offset
flow-color image by this mask leaves thing-class pixels unchanged and zeroes
every background pixel. -/
theorem fg_mask_spec (label_map thing_list : List Nat)
    (img : List (Nat × Nat × Nat)) (i : Nat)
    (hi : i < label_map.length) (hlen : img.length = label_map.length) :
    ((get_fg_mask label_map thing_list).getD i 0 =
      if label_map.getD i 0 ∈ thing_list then 1 else 0) ∧
    ((maskOffsetImage img label_map thing_list).getD i (0, 0, 0) =
      if label_map.getD i 0 ∈ thing_list then img.getD i (0, 0, 0)
      else (0, 0, 0)) := by
  have hmask := get_fg_mask_getD label_map thing_list i hi
  refine ⟨hmask, ?_⟩
  unfold maskOffsetImage
  have hmlen : (get_fg_mask label_map thing_list).length = label_map.length :=
    get_fg_mask_length label_map thing_list
  rw [getD_zipWith_of_lt (fun p m => (p.1 * m, p.2.1 * m, p.2.2 * m))
    img (get_fg_mask label_map thing_list) i (0, 0, 0) (0, 0, 0) 0
    (hlen ▸ hi) (hmlen ▸ hi)]
  rw [hmask]
  by_cases hx : label_map.getD i 0 ∈ thing_list <;>
    · simp only [List.getD_eq_getElem?_getD] at hx ⊢
      simp [hx]

theorem fg_mask_spec_witness :
    ((get_fg_mask [1, 2, 3, 2] [2, 5]).getD 1 0 =
      if [1, 2, 3, 2].getD 1 0 ∈ [2, 5] then 1 else 0) ∧
    ((maskOffsetImage [(1, 2, 3), (4, 5, 6), (7, 8, 9), (10, 11, 12)]
        [1, 2, 3, 2] [2, 5]).getD 1 (0, 0, 0) =
      if [1, 2, 3, 2].getD 1 0 ∈ [2, 5]
      then [(1, 2, 3), (4, 5, 6), (7, 8, 9), (10, 11, 12)].getD 1 (0, 0, 0)
      else (0, 0, 0)) :=
  fg_mask_spec [1, 2, 3, 2] [2, 5]
    [(1, 2, 3), (4, 5, 6), (7, 8, 9), (10, 11, 12)] 1 (by decide) (by decide)

/-- C8: the semantic-error artifact is 255 at a pixel exactly when the
semantic prediction differs from the ground-truth label and the label is not
the ignore label, and 0 otherwise; it only takes the values 0 and 255.  The
ground-truth labels are assumed to fit in a byte, matching the `uint8` cast
the code applies to them. -/
theorem error_mask_spec (semantic_pred gt_raw : List Nat)
    (ignore_label : Nat) (i : Nat)
    (hi : i < semantic_pred.length) (hg : i < gt_raw.length)
    (hbyte : ∀ v ∈ gt_raw, v < 256) :
    ((error_prediction semantic_pred gt_raw ignore_label).getD i 0 =
      if semantic_pred.getD i 0 ≠ gt_raw.getD i 0 ∧
         gt_raw.getD i 0 ≠ ignore_label
      then 255 else 0) ∧
    (∀ v ∈ error_prediction semantic_pred gt_raw ignore_label,
      v = 0 ∨ v = 255) := by
  refine ⟨?_, error_prediction_binary ignore_label _ _⟩
  unfold error_prediction
  rw [getD_zipWith_of_lt
    (fun p l => (if p ≠ l % 256 ∧ l % 256 ≠ ignore_label then 1 else 0) * 255)
    semantic_pred gt_raw i 0 0 0 hi hg]
  have hmem : gt_raw.getD i 0 ∈ gt_raw := by
    rw [List.getD_eq_getElem gt_raw 0 hg]
    exact List.getElem_mem hg
  have hmod : gt_raw.getD i 0 % 256 = gt_raw.getD i 0 :=
    Nat.mod_eq_of_lt (hbyte _ hmem)
  rw [hmod]
  by_cases hp : semantic_pred.getD i 0 ≠ gt_raw.getD i 0 ∧
      gt_raw.getD i 0 ≠ ignore_label
  · simp [hp]
  · simp [hp]

theorem error_mask_spec_witness :
    ((error_prediction [3, 4, 5] [3, 9, 255] 255).getD 1 0 =
      if [3, 4, 5].getD 1 0 ≠ [3, 9, 255].getD 1 0 ∧
         [3, 9, 255].getD 1 0 ≠ 255
      then 255 else 0) ∧
    (∀ v ∈ error_prediction [3, 4, 5] [3, 9, 255] 255, v = 0 ∨ v = 255) :=
  error_mask_spec [3, 4, 5] [3, 9, 255] 255 1
    (by decide) (by decide) (by decide)

end Vis
